import Mathlib

/-!
Shallow embedding of `configutil.go` from `baditaflorin/go-configutil`.

The repository resolves a service configuration from three layered sources:
explicit in-process overrides (the `Option` setters), an optional `.env`-style
file (parsed by godotenv), and the process environment.  Effects are made
explicit: the process environment, the file system (godotenv reads and the
`os.Stat` probes of the upward `.env` search), and the module's install
directory (`runtime.Caller`) are collected in a `Sys` record that is threaded
through the functions.  Go maps are modelled as association lists, Go's
`error` returns as `Except`, and nil-vs-value string results as `Option`.
-/

namespace Configutil

/-- Go `strconv.FormatBool`: `"true"` for true, `"false"` for false. -/
def formatBool (b : Bool) : String := if b then "true" else "false"

/-- Go `strconv.ParseBool`: accepts 1, t, T, TRUE, true, True for true and
0, f, F, FALSE, false, False for false; anything else is a syntax error
(modelled as `none`). -/
def parseBool (s : String) : Option Bool :=
  if s = "1" ∨ s = "t" ∨ s = "T" ∨ s = "TRUE" ∨ s = "true" ∨ s = "True" then some true
  else if s = "0" ∨ s = "f" ∨ s = "F" ∨ s = "FALSE" ∨ s = "false" ∨ s = "False" then some false
  else none

/-- The `Config` struct of configutil.go (lines 14-22), all seven fields. -/
structure Config where
  DatabaseURL : String
  AuthServiceURL : String
  Debug : Bool
  Port : String
  EnvFile : String
  GoogleClientID : String
  GoogleClientSecret : String
deriving DecidableEq, Repr

/-- `&Config{}` of NewConfig line 81: the zero-valued struct. -/
def zeroConfig : Config :=
  { DatabaseURL := "", AuthServiceURL := "", Debug := false, Port := "",
    EnvFile := "", GoogleClientID := "", GoogleClientSecret := "" }

/-- Go `type Option func(*Config)`: a setter mutating the config under
construction, modelled as a function on `Config`. -/
abbrev ConfigOption := Config → Config

/-- `WithDatabaseURL` (lines 26-32): sets DatabaseURL only when the argument
is non-empty. -/
def WithDatabaseURL (url : String) : ConfigOption := fun c =>
  if url ≠ "" then { c with DatabaseURL := url } else c

/-- `WithAuthServiceURL` (lines 34-40). -/
def WithAuthServiceURL (url : String) : ConfigOption := fun c =>
  if url ≠ "" then { c with AuthServiceURL := url } else c

/-- `WithDebug` (lines 42-46): unconditional. -/
def WithDebug (debug : Bool) : ConfigOption := fun c =>
  { c with Debug := debug }

/-- `WithPort` (lines 48-54). -/
def WithPort (port : String) : ConfigOption := fun c =>
  if port ≠ "" then { c with Port := port } else c

/-- `WithEnvFile` (lines 56-62). -/
def WithEnvFile (file : String) : ConfigOption := fun c =>
  if file ≠ "" then { c with EnvFile := file } else c

/-- `WithGoogleClientID` (lines 64-70). -/
def WithGoogleClientID (clientID : String) : ConfigOption := fun c =>
  if clientID ≠ "" then { c with GoogleClientID := clientID } else c

/-- `WithGoogleClientSecret` (lines 72-78). -/
def WithGoogleClientSecret (clientSecret : String) : ConfigOption := fun c =>
  if clientSecret ≠ "" then { c with GoogleClientSecret := clientSecret } else c

/-- Outcome of `godotenv.Read` at a path: the file is absent (`os.IsNotExist`
error), present but unreadable or unparseable (any other error, carrying the
cause message), or parsed into a key-value mapping. -/
inductive FileContent where
  | absent
  | malformed (cause : String)
  | parsed (m : List (String × String))
deriving DecidableEq, Repr

/-- The ambient effects of configutil.go, made explicit.  `osEnv` is
`os.LookupEnv` (so `os.Getenv k` is `(osEnv k).getD ""`); `read` is
`godotenv.Read` on a path string; `stat` says whether `os.Stat` succeeds on
the `.env` file joined to a directory (directories are component lists, the
parent being `dropLast`); `pathStr` renders such a joined path the way
`filepath.Join` does; `basepath` is `filepath.Dir` of the
`runtime.Caller(0)` file, the module's own directory. -/
structure Sys where
  osEnv : String → Option String
  read : String → FileContent
  stat : List String → Bool
  pathStr : List String → String
  basepath : List String

/-- `findEnvFilePath` (lines 158-174): starting from `dir`, probe
`filepath.Join(dir, ".env")`; on failure move to the parent directory
(`filepath.Dir`), stopping when the parent equals the current directory
(the root, here the empty component list).  Returns the found path, or
`none` for Go's empty-string result. -/
def findEnvFilePath (stat : List String → Bool) (dir : List String) :
    Option (List String) :=
  if stat (dir ++ [".env"]) then some (dir ++ [".env"])
  else if h : dir = [] then none
  else findEnvFilePath stat dir.dropLast
termination_by dir.length
decreasing_by
  have hp : 0 < dir.length := List.length_pos.mpr h
  simp [List.length_dropLast]
  omega

/-- The path-resolution prefix of `loadEnv` (lines 137-144): an explicit
non-empty hint is used as-is; else the `ENV_FILE` environment variable (via
`os.Getenv`) when non-empty; else the upward search from the module's own
directory, rendered to a string (empty when nothing is found). -/
def resolveEnvPath (sys : Sys) (envFile : String) : String :=
  if envFile = "" then
    if (sys.osEnv "ENV_FILE").getD "" = "" then
      match findEnvFilePath sys.stat sys.basepath with
      | some p => sys.pathStr p
      | none => ""
    else (sys.osEnv "ENV_FILE").getD ""
  else envFile

/-- `loadEnv` (lines 136-155): read the resolved path with godotenv; an
`IsNotExist` error yields an empty mapping (plus a logged warning), any
other error is wrapped and returned, a successful parse yields the mapping. -/
def loadEnv (sys : Sys) (envFile : String) :
    Except String (List (String × String)) :=
  match sys.read (resolveEnvPath sys envFile) with
  | .parsed m => .ok m
  | .absent => .ok []
  | .malformed cause => .error ("error reading .env file: " ++ cause)

/-- Whether `loadEnv` takes the warning branch of lines 148-151 (file not
found at the resolved path, falling back to OS environment only). -/
def loadEnvWarnsMissing (sys : Sys) (envFile : String) : Bool :=
  match sys.read (resolveEnvPath sys envFile) with
  | .absent => true
  | _ => false

/-- The second early-return of `getEnvWithFallback` (lines 120-123): the
process environment value when present and non-empty, else the fallback. -/
def osLookupOr (osEnv : String → Option String) (key fallback : String) : String :=
  match osEnv key with
  | some value => if value ≠ "" then value else fallback
  | none => fallback

/-- `getEnvWithFallback` (lines 116-124): the file-mapping entry when present
and non-empty; else the process environment variable when present and
non-empty; else the fallback. -/
def getEnvWithFallback (envs : List (String × String))
    (osEnv : String → Option String) (key fallback : String) : String :=
  match List.lookup key envs with
  | some value => if value ≠ "" then value else osLookupOr osEnv key fallback
  | none => osLookupOr osEnv key fallback

/-- `getBoolEnvWithFallback` (lines 126-134): format the boolean fallback as
a string default, run the string lookup, re-parse; on a parse error log a
warning and return the fallback. -/
def getBoolEnvWithFallback (envs : List (String × String))
    (osEnv : String → Option String) (key : String) (fallback : Bool) : Bool :=
  match parseBool (getEnvWithFallback envs osEnv key (formatBool fallback)) with
  | some boolValue => boolValue
  | none => fallback

/-- Whether `getBoolEnvWithFallback` takes the warning branch of lines
129-132 (the candidate string fails `strconv.ParseBool`). -/
def getBoolEnvWarns (envs : List (String × String))
    (osEnv : String → Option String) (key : String) (fallback : Bool) : Bool :=
  (parseBool (getEnvWithFallback envs osEnv key (formatBool fallback))).isNone

/-- The two error construction sites of `NewConfig`: the wrap of a load
failure at line 89 (`failed to load environment: %w`) and the validation
failures of lines 108 and 111 (`<FIELD> is not set`, carrying the field
name). -/
inductive ConfigError where
  | loadError (cause : String)
  | missingField (field : String)
deriving DecidableEq, Repr

/-- `validate` (lines 106-114): DatabaseURL is checked first, then
AuthServiceURL; an empty one fails with the field-naming error. -/
def validate (c : Config) : Except ConfigError Unit :=
  if c.DatabaseURL = "" then .error (.missingField "DATABASE_URL")
  else if c.AuthServiceURL = "" then .error (.missingField "AUTH_SERVICE_URL")
  else .ok ()

/-- The override loop of `NewConfig` (lines 83-85): apply each option in
the order given to the zero-valued struct. -/
def applyOpts (opts : List ConfigOption) : Config :=
  opts.foldl (fun c opt => opt c) zeroConfig

/-- The per-field resolution block of `NewConfig` (lines 92-97), one
sequential assignment per field. -/
def resolveFields (envs : List (String × String))
    (osEnv : String → Option String) (c : Config) : Config :=
  let c := { c with DatabaseURL := getEnvWithFallback envs osEnv "DATABASE_URL" c.DatabaseURL }
  let c := { c with AuthServiceURL := getEnvWithFallback envs osEnv "AUTH_SERVICE_URL" c.AuthServiceURL }
  let c := { c with Debug := getBoolEnvWithFallback envs osEnv "DEBUG" c.Debug }
  let c := { c with Port := getEnvWithFallback envs osEnv "PORT" c.Port }
  let c := { c with GoogleClientID := getEnvWithFallback envs osEnv "GOOGLE_CLIENT_ID" c.GoogleClientID }
  let c := { c with GoogleClientSecret := getEnvWithFallback envs osEnv "GOOGLE_CLIENT_SECRET" c.GoogleClientSecret }
  c

/-- `NewConfig` (lines 80-104): apply the overrides, load the env file using
the override-supplied hint, resolve every field against file and process
environment, validate, and return the config (or the first error). -/
def NewConfig (sys : Sys) (opts : List ConfigOption) : Except ConfigError Config :=
  let c := applyOpts opts
  match loadEnv sys c.EnvFile with
  | .error e => .error (.loadError e)
  | .ok envs =>
    let c := resolveFields envs sys.osEnv c
    match validate c with
    | .error e => .error e
    | .ok _ => .ok c

/-- Modelled from the spec: the per-field precedence of section 4.2 step 4,
stated in the spec's own words — the file-mapping entry for the field's key
if present and non-empty, otherwise the process environment variable of the
same key if present and non-empty, otherwise the value left by the override
step.  Used only to compare against `getEnvWithFallback`. -/
def specPrecedence (fileEntry envVar : Option String) (fallback : String) : String :=
  match fileEntry with
  | some v =>
    if v ≠ "" then v
    else
      match envVar with
      | some w => if w ≠ "" then w else fallback
      | none => fallback
  | none =>
    match envVar with
    | some w => if w ≠ "" then w else fallback
    | none => fallback

/-- Fuel-indexed variant of the upward search, counting probes: `none` means
the fuel ran out before the loop finished. -/
def findEnvFilePathFuel (stat : List String → Bool) :
    Nat → List String → Option (Option (List String))
  | 0, _ => none
  | fuel + 1, dir =>
    if stat (dir ++ [".env"]) then some (some (dir ++ [".env"]))
    else if dir = [] then some none
    else findEnvFilePathFuel stat fuel dir.dropLast

/-! ### Helper lemmas -/

/-- One-step unfolding of the upward search loop. -/
theorem findEnvFilePath_eq (stat : List String → Bool) (dir : List String) :
    findEnvFilePath stat dir =
      if stat (dir ++ [".env"]) then some (dir ++ [".env"])
      else if dir = [] then none
      else findEnvFilePath stat dir.dropLast := by
  rw [findEnvFilePath]
  by_cases h : dir = [] <;> simp [h]

/-- `NewConfig` unfolded to its load / resolve / validate pipeline. -/
theorem NewConfig_eq (sys : Sys) (opts : List ConfigOption) :
    NewConfig sys opts =
      match loadEnv sys (applyOpts opts).EnvFile with
      | .error e => .error (.loadError e)
      | .ok envs =>
        match validate (resolveFields envs sys.osEnv (applyOpts opts)) with
        | .error e => .error e
        | .ok _ => .ok (resolveFields envs sys.osEnv (applyOpts opts)) := rfl

/-- A successful `validate` means both required fields are non-empty. -/
theorem validate_ok_nonempty (c : Config) (u : Unit) (h : validate c = .ok u) :
    c.DatabaseURL ≠ "" ∧ c.AuthServiceURL ≠ "" := by
  unfold validate at h
  constructor
  · intro h1
    rw [if_pos h1] at h
    exact absurd h (by simp)
  · intro h2
    by_cases h1 : c.DatabaseURL = ""
    · rw [if_pos h1] at h
      exact absurd h (by simp)
    · rw [if_neg h1, if_pos h2] at h
      exact absurd h (by simp)

/-- `validate` succeeds when both required fields are non-empty. -/
theorem validate_ok_of_nonempty (c : Config) (h1 : c.DatabaseURL ≠ "")
    (h2 : c.AuthServiceURL ≠ "") : validate c = .ok () := by
  unfold validate
  rw [if_neg h1, if_neg h2]

/-- A failing `validate` returns a `missingField` error. -/
theorem validate_error_shape (c : Config) (e : ConfigError)
    (h : validate c = .error e) : ∃ f, e = ConfigError.missingField f := by
  unfold validate at h
  by_cases h1 : c.DatabaseURL = ""
  · rw [if_pos h1] at h
    exact ⟨"DATABASE_URL", by injection h with h'; exact h'.symm⟩
  · by_cases h2 : c.AuthServiceURL = ""
    · rw [if_neg h1, if_pos h2] at h
      exact ⟨"AUTH_SERVICE_URL", by injection h with h'; exact h'.symm⟩
    · rw [if_neg h1, if_neg h2] at h
      exact absurd h (by simp)

/-- A successful `NewConfig` is the resolved, validated config for the
mapping that `loadEnv` produced. -/
theorem NewConfig_ok_resolved (sys : Sys) (opts : List ConfigOption) (c : Config)
    (hok : NewConfig sys opts = .ok c) :
    ∃ envs, loadEnv sys (applyOpts opts).EnvFile = .ok envs ∧
      c = resolveFields envs sys.osEnv (applyOpts opts) ∧ validate c = .ok () := by
  rw [NewConfig_eq] at hok
  cases hl : loadEnv sys (applyOpts opts).EnvFile with
  | error e =>
    rw [hl] at hok
    simp at hok
  | ok envs =>
    rw [hl] at hok
    simp only [] at hok
    refine ⟨envs, rfl, ?_⟩
    cases hv : validate (resolveFields envs sys.osEnv (applyOpts opts)) with
    | error e =>
      rw [hv] at hok
      simp at hok
    | ok u =>
      rw [hv] at hok
      simp only [] at hok
      injection hok with hc
      refine ⟨hc.symm, ?_⟩
      rw [hc] at hv
      rw [hv]

/-- The source lookup agrees with the spec-worded precedence. -/
theorem getEnvWithFallback_eq_spec (envs : List (String × String))
    (osEnv : String → Option String) (key fallback : String) :
    getEnvWithFallback envs osEnv key fallback =
      specPrecedence (List.lookup key envs) (osEnv key) fallback := by
  unfold getEnvWithFallback specPrecedence osLookupOr
  cases List.lookup key envs <;> cases osEnv key <;> simp

/-- Projection of the resolution block: DatabaseURL. -/
theorem resolveFields_DatabaseURL (envs : List (String × String))
    (osEnv : String → Option String) (c : Config) :
    (resolveFields envs osEnv c).DatabaseURL =
      getEnvWithFallback envs osEnv "DATABASE_URL" c.DatabaseURL := rfl

/-- Projection of the resolution block: AuthServiceURL. -/
theorem resolveFields_AuthServiceURL (envs : List (String × String))
    (osEnv : String → Option String) (c : Config) :
    (resolveFields envs osEnv c).AuthServiceURL =
      getEnvWithFallback envs osEnv "AUTH_SERVICE_URL" c.AuthServiceURL := rfl

/-- Projection of the resolution block: Debug. -/
theorem resolveFields_Debug (envs : List (String × String))
    (osEnv : String → Option String) (c : Config) :
    (resolveFields envs osEnv c).Debug =
      getBoolEnvWithFallback envs osEnv "DEBUG" c.Debug := rfl

/-- Projection of the resolution block: Port. -/
theorem resolveFields_Port (envs : List (String × String))
    (osEnv : String → Option String) (c : Config) :
    (resolveFields envs osEnv c).Port =
      getEnvWithFallback envs osEnv "PORT" c.Port := rfl

/-- Projection of the resolution block: EnvFile is untouched. -/
theorem resolveFields_EnvFile (envs : List (String × String))
    (osEnv : String → Option String) (c : Config) :
    (resolveFields envs osEnv c).EnvFile = c.EnvFile := rfl

/-- Projection of the resolution block: GoogleClientID. -/
theorem resolveFields_GoogleClientID (envs : List (String × String))
    (osEnv : String → Option String) (c : Config) :
    (resolveFields envs osEnv c).GoogleClientID =
      getEnvWithFallback envs osEnv "GOOGLE_CLIENT_ID" c.GoogleClientID := rfl

/-- Projection of the resolution block: GoogleClientSecret. -/
theorem resolveFields_GoogleClientSecret (envs : List (String × String))
    (osEnv : String → Option String) (c : Config) :
    (resolveFields envs osEnv c).GoogleClientSecret =
      getEnvWithFallback envs osEnv "GOOGLE_CLIENT_SECRET" c.GoogleClientSecret := rfl

/-! ### Concrete worlds used by the witnesses -/

/-- A world whose file mapping (at the hinted path `/cfg`) sets
`DATABASE_URL`, while the process environment sets both `DATABASE_URL`
(differently) and `AUTH_SERVICE_URL`. -/
def sysW : Sys where
  osEnv := fun k =>
    if k = "DATABASE_URL" then some "envDB"
    else if k = "AUTH_SERVICE_URL" then some "http://b" else none
  read := fun p =>
    if p = "/cfg" then .parsed [("DATABASE_URL", "fileDB")] else .absent
  stat := fun _ => false
  pathStr := fun _ => ""
  basepath := []

/-- The single override used with `sysW`: the file-path hint. -/
def optsW : List ConfigOption := [WithEnvFile "/cfg"]

/-- The mapping `sysW` yields at `/cfg`. -/
def envsW : List (String × String) := [("DATABASE_URL", "fileDB")]

/-- The configuration `NewConfig sysW optsW` produces: the file beats the
environment on `DATABASE_URL`, the environment fills `AuthServiceURL`. -/
def cfgW : Config :=
  { DatabaseURL := "fileDB", AuthServiceURL := "http://b", Debug := false,
    Port := "", EnvFile := "/cfg", GoogleClientID := "", GoogleClientSecret := "" }

/-- A world whose file at the hinted path `/cfg` exists but cannot be
parsed. -/
def sysM : Sys where
  osEnv := fun _ => none
  read := fun p => if p = "/cfg" then .malformed "bad syntax" else .absent
  stat := fun _ => false
  pathStr := fun _ => ""
  basepath := []

/-- A world with nothing set at all: empty process environment, no file
anywhere, no `.env` found by the upward search. -/
def sysB : Sys where
  osEnv := fun _ => none
  read := fun _ => .absent
  stat := fun _ => false
  pathStr := fun _ => ""
  basepath := []

/-! ### Claims -/

/-- Claim C1: for every string field, the final resolved value is the
file-mapping entry when present and non-empty, else the process environment
variable when present and non-empty, else the value the override step left
(here stated against `specPrecedence`, the spec-worded precedence); in
particular a non-empty file entry wins over both. -/
theorem claimC1_string_field_precedence (sys : Sys) (opts : List ConfigOption)
    (envs : List (String × String)) (c : Config)
    (hload : loadEnv sys (applyOpts opts).EnvFile = .ok envs)
    (hok : NewConfig sys opts = .ok c) :
    c.DatabaseURL = specPrecedence (List.lookup "DATABASE_URL" envs)
      (sys.osEnv "DATABASE_URL") (applyOpts opts).DatabaseURL ∧
    c.AuthServiceURL = specPrecedence (List.lookup "AUTH_SERVICE_URL" envs)
      (sys.osEnv "AUTH_SERVICE_URL") (applyOpts opts).AuthServiceURL ∧
    c.Port = specPrecedence (List.lookup "PORT" envs)
      (sys.osEnv "PORT") (applyOpts opts).Port ∧
    c.GoogleClientID = specPrecedence (List.lookup "GOOGLE_CLIENT_ID" envs)
      (sys.osEnv "GOOGLE_CLIENT_ID") (applyOpts opts).GoogleClientID ∧
    c.GoogleClientSecret = specPrecedence (List.lookup "GOOGLE_CLIENT_SECRET" envs)
      (sys.osEnv "GOOGLE_CLIENT_SECRET") (applyOpts opts).GoogleClientSecret := by
  obtain ⟨envs', hl', hc, _⟩ := NewConfig_ok_resolved sys opts c hok
  rw [hload] at hl'
  injection hl' with he
  subst he
  subst hc
  refine ⟨?_, ?_, ?_, ?_, ?_⟩
  · rw [resolveFields_DatabaseURL, getEnvWithFallback_eq_spec]
  · rw [resolveFields_AuthServiceURL, getEnvWithFallback_eq_spec]
  · rw [resolveFields_Port, getEnvWithFallback_eq_spec]
  · rw [resolveFields_GoogleClientID, getEnvWithFallback_eq_spec]
  · rw [resolveFields_GoogleClientSecret, getEnvWithFallback_eq_spec]

/-- Witness for C1 at a concrete world: the file entry `fileDB` beats the
environment value `envDB` for DatabaseURL, the environment fills
AuthServiceURL, the overrides fill nothing else. -/
theorem claimC1_witness :
    cfgW.DatabaseURL = specPrecedence (List.lookup "DATABASE_URL" envsW)
      (sysW.osEnv "DATABASE_URL") (applyOpts optsW).DatabaseURL ∧
    cfgW.AuthServiceURL = specPrecedence (List.lookup "AUTH_SERVICE_URL" envsW)
      (sysW.osEnv "AUTH_SERVICE_URL") (applyOpts optsW).AuthServiceURL ∧
    cfgW.Port = specPrecedence (List.lookup "PORT" envsW)
      (sysW.osEnv "PORT") (applyOpts optsW).Port ∧
    cfgW.GoogleClientID = specPrecedence (List.lookup "GOOGLE_CLIENT_ID" envsW)
      (sysW.osEnv "GOOGLE_CLIENT_ID") (applyOpts optsW).GoogleClientID ∧
    cfgW.GoogleClientSecret = specPrecedence (List.lookup "GOOGLE_CLIENT_SECRET" envsW)
      (sysW.osEnv "GOOGLE_CLIENT_SECRET") (applyOpts optsW).GoogleClientSecret :=
  claimC1_string_field_precedence sysW optsW envsW cfgW rfl rfl

/-- Claim C2: a successfully constructed configuration has non-empty
DatabaseURL and AuthServiceURL. -/
theorem claimC2_required_nonempty (sys : Sys) (opts : List ConfigOption) (c : Config)
    (hok : NewConfig sys opts = .ok c) :
    c.DatabaseURL ≠ "" ∧ c.AuthServiceURL ≠ "" := by
  obtain ⟨envs, _, _, hv⟩ := NewConfig_ok_resolved sys opts c hok
  exact validate_ok_nonempty c () hv

/-- Witness for C2 at the concrete world `sysW`. -/
theorem claimC2_witness : cfgW.DatabaseURL ≠ "" ∧ cfgW.AuthServiceURL ≠ "" :=
  claimC2_required_nonempty sysW optsW cfgW rfl

/-- Claim C5: overrides are applied in the order given; each string-field
setter rewrites exactly its own field when its argument is non-empty and is
the identity on an empty argument; the boolean setter always takes effect
and touches nothing else; hence of two non-empty overrides of the same
string field the later one determines the pre-resolution value. -/
theorem claimC5_overrides_order_frame :
    (∀ (pre : List ConfigOption) (o : ConfigOption),
       applyOpts (pre ++ [o]) = o (applyOpts pre)) ∧
    (∀ url c, url ≠ "" → WithDatabaseURL url c = { c with DatabaseURL := url }) ∧
    (∀ c, WithDatabaseURL "" c = c) ∧
    (∀ url c, url ≠ "" → WithAuthServiceURL url c = { c with AuthServiceURL := url }) ∧
    (∀ c, WithAuthServiceURL "" c = c) ∧
    (∀ b c, WithDebug b c = { c with Debug := b }) ∧
    (∀ p c, p ≠ "" → WithPort p c = { c with Port := p }) ∧
    (∀ c, WithPort "" c = c) ∧
    (∀ f c, f ≠ "" → WithEnvFile f c = { c with EnvFile := f }) ∧
    (∀ c, WithEnvFile "" c = c) ∧
    (∀ i c, i ≠ "" → WithGoogleClientID i c = { c with GoogleClientID := i }) ∧
    (∀ c, WithGoogleClientID "" c = c) ∧
    (∀ s c, s ≠ "" → WithGoogleClientSecret s c = { c with GoogleClientSecret := s }) ∧
    (∀ c, WithGoogleClientSecret "" c = c) ∧
    (∀ a b c, b ≠ "" →
       (WithDatabaseURL b (WithDatabaseURL a c)).DatabaseURL = b) := by
  refine ⟨?_, ?_, ?_, ?_, ?_, ?_, ?_, ?_, ?_, ?_, ?_, ?_, ?_, ?_, ?_⟩
  · intro pre o
    simp [applyOpts, List.foldl_append]
  · intro url c h; simp [WithDatabaseURL, h]
  · intro c; simp [WithDatabaseURL]
  · intro url c h; simp [WithAuthServiceURL, h]
  · intro c; simp [WithAuthServiceURL]
  · intro b c; rfl
  · intro p c h; simp [WithPort, h]
  · intro c; simp [WithPort]
  · intro f c h; simp [WithEnvFile, h]
  · intro c; simp [WithEnvFile]
  · intro i c h; simp [WithGoogleClientID, h]
  · intro c; simp [WithGoogleClientID]
  · intro s c h; simp [WithGoogleClientSecret, h]
  · intro c; simp [WithGoogleClientSecret]
  · intro a b c h; simp [WithDatabaseURL, h]

/-- Witness for C5: the later of two non-empty DatabaseURL overrides wins. -/
theorem claimC5_witness :
    (WithDatabaseURL "db2" (WithDatabaseURL "db1" zeroConfig)).DatabaseURL = "db2" :=
  claimC5_overrides_order_frame.2.2.2.2.2.2.2.2.2.2.2.2.2.2
    "db1" "db2" zeroConfig (by decide)

/-- Claim C7: resolution is deterministic — for any fixed inputs (overrides,
file system, process environment), two successful runs agree field for
field, and two failing runs return the same error outcome. -/
theorem claimC7_deterministic (sys : Sys) (opts : List ConfigOption) :
    (∀ c c', NewConfig sys opts = .ok c → NewConfig sys opts = .ok c' →
       c.DatabaseURL = c'.DatabaseURL ∧ c.AuthServiceURL = c'.AuthServiceURL ∧
       c.Debug = c'.Debug ∧ c.Port = c'.Port ∧ c.EnvFile = c'.EnvFile ∧
       c.GoogleClientID = c'.GoogleClientID ∧
       c.GoogleClientSecret = c'.GoogleClientSecret) ∧
    (∀ e e', NewConfig sys opts = .error e → NewConfig sys opts = .error e' →
       e = e') := by
  constructor
  · intro c c' h1 h2
    rw [h1] at h2
    injection h2 with hc
    subst hc
    exact ⟨rfl, rfl, rfl, rfl, rfl, rfl, rfl⟩
  · intro e e' g1 g2
    rw [g1] at g2
    injection g2

/-- Witness for C7, exercising both halves: the success clause at the world
`sysW` (two runs of the same resolution), and the error clause at the world
`sysM`, where both runs fail with the same wrapped load error. -/
theorem claimC7_witness :
    (cfgW.DatabaseURL = cfgW.DatabaseURL ∧ cfgW.AuthServiceURL = cfgW.AuthServiceURL ∧
     cfgW.Debug = cfgW.Debug ∧ cfgW.Port = cfgW.Port ∧ cfgW.EnvFile = cfgW.EnvFile ∧
     cfgW.GoogleClientID = cfgW.GoogleClientID ∧
     cfgW.GoogleClientSecret = cfgW.GoogleClientSecret) ∧
    ConfigError.loadError ("error reading .env file: " ++ "bad syntax") =
      ConfigError.loadError ("error reading .env file: " ++ "bad syntax") := by
  constructor
  · exact (claimC7_deterministic sysW optsW).1 cfgW cfgW rfl rfl
  · exact (claimC7_deterministic sysM [WithEnvFile "/cfg"]).2
      (ConfigError.loadError ("error reading .env file: " ++ "bad syntax"))
      (ConfigError.loadError ("error reading .env file: " ++ "bad syntax")) rfl rfl

/-- The fueled search agrees with the loop once the fuel exceeds the
directory depth. -/
theorem findEnvFilePathFuel_enough (stat : List String → Bool) :
    ∀ (fuel : Nat) (dir : List String), dir.length < fuel →
      findEnvFilePathFuel stat fuel dir = some (findEnvFilePath stat dir) := by
  intro fuel
  induction fuel with
  | zero => intro dir h; exact absurd h (Nat.not_lt_zero _)
  | succ n ih =>
    intro dir h
    rw [findEnvFilePath_eq]
    simp only [findEnvFilePathFuel]
    by_cases hs : stat (dir ++ [".env"])
    · rw [if_pos hs, if_pos hs]
    · rw [if_neg hs, if_neg hs]
      by_cases hd : dir = []
      · rw [if_pos hd, if_pos hd]
      · rw [if_neg hd, if_neg hd]
        apply ih
        rw [List.length_dropLast]
        have hp : 0 < dir.length := List.length_pos.mpr hd
        omega

/-- Claim C9: the upward `.env` search terminates for every starting
directory — it finishes within depth-plus-one probes, as witnessed by the
fueled variant returning the loop's answer at fuel `dir.length + 1`. -/
theorem claimC9_search_terminates (stat : List String → Bool) (dir : List String) :
    findEnvFilePathFuel stat (dir.length + 1) dir =
      some (findEnvFilePath stat dir) :=
  findEnvFilePathFuel_enough stat (dir.length + 1) dir (Nat.lt_succ_self _)

/-- Claim C10: `EnvFile` is a seventh field beyond the six the data model
lists: only `WithEnvFile` (on a non-empty argument) sets it, no other setter
touches it, the resolution block never changes it, and a successful
`NewConfig` returns exactly the value the overrides left in it. -/
theorem claimC10_envfile_field (sys : Sys) (opts : List ConfigOption) (c : Config)
    (hok : NewConfig sys opts = .ok c) :
    c.EnvFile = (applyOpts opts).EnvFile ∧
    (∀ envs osEnv c0, (resolveFields envs osEnv c0).EnvFile = c0.EnvFile) ∧
    (∀ f c0, f ≠ "" → WithEnvFile f c0 = { c0 with EnvFile := f }) ∧
    (∀ c0, WithEnvFile "" c0 = c0) ∧
    (∀ u c0, (WithDatabaseURL u c0).EnvFile = c0.EnvFile) ∧
    (∀ u c0, (WithAuthServiceURL u c0).EnvFile = c0.EnvFile) ∧
    (∀ b c0, (WithDebug b c0).EnvFile = c0.EnvFile) ∧
    (∀ u c0, (WithPort u c0).EnvFile = c0.EnvFile) ∧
    (∀ u c0, (WithGoogleClientID u c0).EnvFile = c0.EnvFile) ∧
    (∀ u c0, (WithGoogleClientSecret u c0).EnvFile = c0.EnvFile) := by
  obtain ⟨envs, _, hc, _⟩ := NewConfig_ok_resolved sys opts c hok
  subst hc
  refine ⟨rfl, ?_, ?_, ?_, ?_, ?_, ?_, ?_, ?_, ?_⟩
  · intro envs' osEnv' c0; rfl
  · intro f c0 h; simp [WithEnvFile, h]
  · intro c0; simp [WithEnvFile]
  · intro u c0; unfold WithDatabaseURL; split <;> rfl
  · intro u c0; unfold WithAuthServiceURL; split <;> rfl
  · intro b c0; rfl
  · intro u c0; unfold WithPort; split <;> rfl
  · intro u c0; unfold WithGoogleClientID; split <;> rfl
  · intro u c0; unfold WithGoogleClientSecret; split <;> rfl

/-- Witness for C10: the hint `/cfg` set by the override survives resolution
unchanged. -/
theorem claimC10_witness : cfgW.EnvFile = (applyOpts optsW).EnvFile :=
  (claimC10_envfile_field sysW optsW cfgW rfl).1

/-- Claim C3: with the file load succeeding, resolution fails with the
field-naming missing-field error exactly when a required field resolves to
empty, DatabaseURL being checked first; and that error kind is distinct
from the load-error kind. -/
theorem claimC3_missing_required (sys : Sys) (opts : List ConfigOption)
    (envs : List (String × String))
    (hload : loadEnv sys (applyOpts opts).EnvFile = .ok envs) :
    (NewConfig sys opts = .error (ConfigError.missingField "DATABASE_URL") ↔
       (resolveFields envs sys.osEnv (applyOpts opts)).DatabaseURL = "") ∧
    (NewConfig sys opts = .error (ConfigError.missingField "AUTH_SERVICE_URL") ↔
       ((resolveFields envs sys.osEnv (applyOpts opts)).DatabaseURL ≠ "" ∧
        (resolveFields envs sys.osEnv (applyOpts opts)).AuthServiceURL = "")) ∧
    (∀ field cause, ConfigError.missingField field ≠ ConfigError.loadError cause) := by
  have hNC : NewConfig sys opts =
      match validate (resolveFields envs sys.osEnv (applyOpts opts)) with
      | .error e => .error e
      | .ok _ => .ok (resolveFields envs sys.osEnv (applyOpts opts)) := by
    rw [NewConfig_eq, hload]
  refine ⟨?_, ?_, ?_⟩
  · by_cases h1 : (resolveFields envs sys.osEnv (applyOpts opts)).DatabaseURL = ""
    · have hv : validate (resolveFields envs sys.osEnv (applyOpts opts)) =
          .error (.missingField "DATABASE_URL") := by
        unfold validate
        rw [if_pos h1]
      rw [hv] at hNC
      exact ⟨fun _ => h1, fun _ => hNC⟩
    · constructor
      · intro heq
        by_cases h2 : (resolveFields envs sys.osEnv (applyOpts opts)).AuthServiceURL = ""
        · have hv : validate (resolveFields envs sys.osEnv (applyOpts opts)) =
              .error (.missingField "AUTH_SERVICE_URL") := by
            unfold validate
            rw [if_neg h1, if_pos h2]
          rw [hv] at hNC
          have h3 : (Except.error (ConfigError.missingField "AUTH_SERVICE_URL") :
              Except ConfigError Config) =
              .error (ConfigError.missingField "DATABASE_URL") :=
            hNC.symm.trans heq
          injection h3 with h4
          injection h4 with h5
          exact absurd h5 (by decide)
        · have hv : validate (resolveFields envs sys.osEnv (applyOpts opts)) = .ok () :=
            validate_ok_of_nonempty _ h1 h2
          rw [hv] at hNC
          have h3 : (Except.ok (resolveFields envs sys.osEnv (applyOpts opts)) :
              Except ConfigError Config) =
              .error (ConfigError.missingField "DATABASE_URL") :=
            hNC.symm.trans heq
          exact absurd h3 (by simp)
      · intro hr
        exact absurd hr h1
  · by_cases h1 : (resolveFields envs sys.osEnv (applyOpts opts)).DatabaseURL = ""
    · have hv : validate (resolveFields envs sys.osEnv (applyOpts opts)) =
          .error (.missingField "DATABASE_URL") := by
        unfold validate
        rw [if_pos h1]
      rw [hv] at hNC
      constructor
      · intro heq
        have h3 : (Except.error (ConfigError.missingField "DATABASE_URL") :
            Except ConfigError Config) =
            .error (ConfigError.missingField "AUTH_SERVICE_URL") :=
          hNC.symm.trans heq
        injection h3 with h4
        injection h4 with h5
        exact absurd h5 (by decide)
      · intro hand
        exact absurd h1 hand.1
    · by_cases h2 : (resolveFields envs sys.osEnv (applyOpts opts)).AuthServiceURL = ""
      · have hv : validate (resolveFields envs sys.osEnv (applyOpts opts)) =
            .error (.missingField "AUTH_SERVICE_URL") := by
          unfold validate
          rw [if_neg h1, if_pos h2]
        rw [hv] at hNC
        exact ⟨fun _ => ⟨h1, h2⟩, fun _ => hNC⟩
      · have hv : validate (resolveFields envs sys.osEnv (applyOpts opts)) = .ok () :=
          validate_ok_of_nonempty _ h1 h2
        rw [hv] at hNC
        constructor
        · intro heq
          have h3 : (Except.ok (resolveFields envs sys.osEnv (applyOpts opts)) :
              Except ConfigError Config) =
              .error (ConfigError.missingField "AUTH_SERVICE_URL") :=
            hNC.symm.trans heq
          exact absurd h3 (by simp)
        · intro hand
          exact absurd hand.2 h2
  · intro field cause hcon
    exact ConfigError.noConfusion hcon

/-- Witness for C3: with no overrides, no file anywhere and an empty
process environment, resolution fails naming `DATABASE_URL`. -/
theorem claimC3_witness :
    NewConfig sysB [] = .error (ConfigError.missingField "DATABASE_URL") := by
  have h1 : findEnvFilePath sysB.stat sysB.basepath = none := by
    rw [findEnvFilePath_eq]
    simp [sysB]
  have hload : loadEnv sysB (applyOpts []).EnvFile = .ok [] := by
    simp [loadEnv, resolveEnvPath, sysB, h1, applyOpts, zeroConfig]
  exact (claimC3_missing_required sysB [] [] hload).1.mpr rfl

/-- Claim C4: `loadEnv` fails exactly when the file at the resolved path
exists but cannot be parsed, and then wraps the cause; an absent file (or
empty resolved path, which reads as absent) yields an empty mapping with a
logged warning; and a load failure is exactly what makes `NewConfig` fail
with the load-error kind. -/
theorem claimC4_load_error (sys : Sys) (hint : String) (opts : List ConfigOption) :
    ((∃ e, loadEnv sys hint = .error e) ↔
       (∃ cause, sys.read (resolveEnvPath sys hint) = .malformed cause)) ∧
    (∀ cause, sys.read (resolveEnvPath sys hint) = .malformed cause →
       loadEnv sys hint = .error ("error reading .env file: " ++ cause)) ∧
    (sys.read (resolveEnvPath sys hint) = .absent →
       loadEnv sys hint = .ok [] ∧ loadEnvWarnsMissing sys hint = true) ∧
    ((∃ e, loadEnv sys (applyOpts opts).EnvFile = .error e) ↔
       (∃ e, NewConfig sys opts = .error (ConfigError.loadError e))) := by
  refine ⟨?_, ?_, ?_, ?_⟩
  · unfold loadEnv
    cases h : sys.read (resolveEnvPath sys hint) with
    | absent => simp
    | malformed cause => simp
    | parsed m => simp
  · intro cause h
    unfold loadEnv
    rw [h]
  · intro h
    unfold loadEnv loadEnvWarnsMissing
    rw [h]
    exact ⟨rfl, rfl⟩
  · rw [NewConfig_eq]
    cases h : loadEnv sys (applyOpts opts).EnvFile with
    | error e =>
      constructor
      · intro _
        exact ⟨e, rfl⟩
      · intro _
        exact ⟨e, rfl⟩
    | ok envs =>
      constructor
      · rintro ⟨e, he⟩
        exact absurd he (by simp)
      · rintro ⟨e, he⟩
        simp only [] at he
        cases hv : validate (resolveFields envs sys.osEnv (applyOpts opts)) with
        | error e2 =>
          rw [hv] at he
          obtain ⟨f, hf⟩ := validate_error_shape _ e2 hv
          subst hf
          have hcc : ConfigError.missingField f = ConfigError.loadError e := by
            injection he
          exact ConfigError.noConfusion hcc
        | ok u =>
          rw [hv] at he
          simp at he

/-- Witness for C4: a malformed file at the hinted path makes `loadEnv`
fail with the wrapped cause and `NewConfig` fail with the load-error kind. -/
theorem claimC4_witness :
    loadEnv sysM "/cfg" = .error ("error reading .env file: " ++ "bad syntax") ∧
    (∃ e, NewConfig sysM [WithEnvFile "/cfg"] = .error (ConfigError.loadError e)) := by
  have h := claimC4_load_error sysM "/cfg" [WithEnvFile "/cfg"]
  refine ⟨h.2.1 "bad syntax" rfl, h.2.2.2.mp ⟨"error reading .env file: " ++ "bad syntax", rfl⟩⟩

/-- Claim C6: an unparseable boolean candidate is discarded with a logged
warning and the Debug field keeps the prior fallback value; when no
candidate is present, formatting the fallback and re-parsing it returns
exactly the fallback. -/
theorem claimC6_invalid_bool_fallback (envs : List (String × String))
    (osEnv : String → Option String) (c0 : Config)
    (hbad : parseBool (getEnvWithFallback envs osEnv "DEBUG" (formatBool c0.Debug)) =
      none) :
    (resolveFields envs osEnv c0).Debug = c0.Debug ∧
    getBoolEnvWarns envs osEnv "DEBUG" c0.Debug = true ∧
    (∀ b, parseBool (formatBool b) = some b) := by
  refine ⟨?_, ?_, ?_⟩
  · rw [resolveFields_Debug]
    unfold getBoolEnvWithFallback
    rw [hbad]
  · unfold getBoolEnvWarns
    rw [hbad]
    rfl
  · intro b
    cases b <;> rfl

/-- The mapping of a file containing only `DEBUG=notabool`. -/
def envsN : List (String × String) := [("DEBUG", "notabool")]

/-- Witness for C6: with `DEBUG=notabool` in the file, an empty environment
and no prior default, Debug resolves to the zero default `false` and the
warning branch fires. -/
theorem claimC6_witness :
    (resolveFields envsN (fun _ => none) zeroConfig).Debug = zeroConfig.Debug ∧
    getBoolEnvWarns envsN (fun _ => none) "DEBUG" zeroConfig.Debug = true := by
  have h := claimC6_invalid_bool_fallback envsN (fun _ => none) zeroConfig rfl
  exact ⟨h.1, h.2.1⟩

/-- Claim C8: the file path is resolved in order — a non-empty explicit
hint as-is; else the `ENV_FILE` environment variable when non-empty; else
the upward `.env` search from the module's own directory, which probes each
directory and moves to the parent until the root, yielding the empty path
when nothing is found. -/
theorem claimC8_path_resolution_order (sys : Sys) (hint : String) :
    (hint ≠ "" → resolveEnvPath sys hint = hint) ∧
    (∀ v, hint = "" → sys.osEnv "ENV_FILE" = some v → v ≠ "" →
       resolveEnvPath sys hint = v) ∧
    (hint = "" → (sys.osEnv "ENV_FILE").getD "" = "" →
       resolveEnvPath sys hint =
         match findEnvFilePath sys.stat sys.basepath with
         | some p => sys.pathStr p
         | none => "") ∧
    (∀ dir, (sys.stat (dir ++ [".env"]) = true →
        findEnvFilePath sys.stat dir = some (dir ++ [".env"])) ∧
      (sys.stat (dir ++ [".env"]) = false → dir ≠ [] →
        findEnvFilePath sys.stat dir = findEnvFilePath sys.stat dir.dropLast) ∧
      (sys.stat [".env"] = false → findEnvFilePath sys.stat [] = none)) := by
  refine ⟨?_, ?_, ?_, ?_⟩
  · intro h
    unfold resolveEnvPath
    rw [if_neg h]
  · intro v h hv hne
    unfold resolveEnvPath
    rw [if_pos h, hv]
    simp only [Option.getD_some]
    rw [if_neg hne]
  · intro h h2
    unfold resolveEnvPath
    rw [if_pos h, h2, if_pos rfl]
  · intro dir
    refine ⟨?_, ?_, ?_⟩
    · intro h
      rw [findEnvFilePath_eq, if_pos h]
    · intro h hd
      rw [findEnvFilePath_eq, if_neg (by simp [h]), if_neg hd]
    · intro h
      rw [findEnvFilePath_eq]
      rw [if_neg (by simp [h]), if_pos rfl]

/-- Witness for C8: an explicit hint is used as-is. -/
theorem claimC8_witness : resolveEnvPath sysB "/explicit" = "/explicit" :=
  (claimC8_path_resolution_order sysB "/explicit").1 (by decide)

end Configutil
